import Mathlib

/-!
Shallow embedding of `multiworld/core/multitask_env.py`.

Modelling conventions:
* a 1-D numpy array of floats is a `List ℝ`; a batched (2-D) array is a
  `List (List ℝ)` (leading batch dimension);
* a Python dict with string keys is an association list `List (String × _)`,
  looked up with `List.lookup`;
* a Python call that may raise is an `Except String _`, the string naming the
  exception class (`AssertionError`, `KeyError`, `IndexError`, `TypeError`);
* the Python value `None` (an ordinary value, not an exception) is `Option.none`;
* `np.float32` comparisons and arithmetic are modelled over `ℝ`.
-/

namespace Multiworld

/-- Embedding of the module-level function `goal_distance(goal_a, goal_b)`:
`assert goal_a.shape == goal_b.shape` then
`np.linalg.norm(goal_a - goal_b, axis=-1)`, for 1-D arrays, where the norm
along the last axis is the scalar `sqrt (Σ (aᵢ - bᵢ)²)`.  A failed assert
raises `AssertionError`; the shape of a 1-D array is its length. -/
noncomputable def goal_distance (goal_a goal_b : List ℝ) : Except String ℝ :=
  if goal_a.length = goal_b.length then
    .ok (Real.sqrt (((List.zipWith (fun x y => x - y) goal_a goal_b).map
      (fun z => z * z)).sum))
  else .error "AssertionError"

/-- Embedding of `goal_distance` applied to batched (2-D) arrays: numpy
subtracts elementwise and takes the norm of each row along the last axis,
yielding one norm per batch entry.  Two 2-D arrays have equal shape exactly
when they have the same number of rows and the same row lengths (numpy
arrays are rectangular, so the per-row length lists coincide iff the shapes
do). -/
noncomputable def goal_distance_batch (goal_a goal_b : List (List ℝ)) :
    Except String (List ℝ) :=
  if goal_a.map List.length = goal_b.map List.length then
    .ok (List.zipWith
      (fun x y => Real.sqrt (((List.zipWith (fun u v => u - v) x y).map
        (fun z => z * z)).sum))
      goal_a goal_b)
  else .error "AssertionError"

/-- The state of a `MultitaskEnv` instance, as read by the concrete default
methods of the class: the config fields `reward_type` and
`distance_threshold`, the externally owned current desired goal
`_state_goal`, the observation dict the external `_get_obs()` returns, the
subclass implementation of `sample_goals`, and the (possibly overridden)
`compute_rewards`, whose Python default body is `pass`, i.e. returns `None`
(`Option.none` here; a subclass override returns `some` array). -/
structure MultitaskEnv where
  reward_type : String
  distance_threshold : ℝ
  state_goal : List ℝ
  get_obs : List (String × List ℝ)
  sample_goals : Nat → List (String × List (List ℝ))
  compute_rewards : List (List ℝ) → List (String × List (List ℝ)) → Option (List ℝ)

namespace MultitaskEnv

/-- Embedding of the base-class body of `compute_rewards(self, actions, obs)`:
the body is `pass`, so the call returns the Python value `None` for every
input — it does not raise `NotImplementedError`. -/
def compute_rewards_default (actions : List (List ℝ))
    (obs : List (String × List (List ℝ))) : Option (List ℝ) :=
  none

/-- Embedding of `compute_reward_gym(self, achieved_goal, desired_goal, info)`:
`d = goal_distance(achieved_goal, desired_goal)`; if `reward_type == "sparse"`
return `-(d > threshold).astype(np.float32)` (that is, `-1.0` when
`threshold < d` and `-0.0 = 0.0` otherwise), else return `-d`.  The `info`
argument is accepted and ignored, as in the source. -/
noncomputable def compute_reward_gym (env : MultitaskEnv)
    (achieved_goal desired_goal : List ℝ) (info : List (String × ℝ)) :
    Except String ℝ :=
  match goal_distance achieved_goal desired_goal with
  | .error e => .error e
  | .ok d =>
    if env.reward_type = "sparse" then
      .ok (-(if env.distance_threshold < d then (1 : ℝ) else 0))
    else
      .ok (-d)

/-- Embedding of `_is_success(self, achieved_goal, desired_goal)`:
`d = goal_distance(...)`; return `(d < threshold).astype(np.float32)`,
i.e. `1.0` when `d < threshold` (strict) and `0.0` otherwise. -/
noncomputable def is_success (env : MultitaskEnv)
    (achieved_goal desired_goal : List ℝ) : Except String ℝ :=
  match goal_distance achieved_goal desired_goal with
  | .error e => .error e
  | .ok d => .ok (if d < env.distance_threshold then (1 : ℝ) else 0)

/-- Embedding of `step(self, action)`: read `ob = self._get_obs()`, build
`info = {'is_success': self._is_success(ob['achieved_goal'], self._state_goal)}`,
compute `reward = self.compute_reward_gym(ob['achieved_goal'], self._state_goal, info)`,
set `done = False` and return `(ob, reward, done, info)`.  The dict access
`ob['achieved_goal']` raises `KeyError` when the key is absent.  The `action`
argument is never read. -/
noncomputable def step (env : MultitaskEnv) (action : List ℝ) :
    Except String ((List (String × List ℝ)) × ℝ × Bool × List (String × ℝ)) :=
  let ob := env.get_obs
  match List.lookup "achieved_goal" ob with
  | none => .error "KeyError"
  | some ag =>
    match env.is_success ag env.state_goal with
    | .error e => .error e
    | .ok s =>
      let info := [("is_success", s)]
      match env.compute_reward_gym ag env.state_goal info with
      | .error e => .error e
      | .ok reward => .ok (ob, reward, false, info)

/-- Embedding of the static method `unbatchify_dict(batch_dict, i)`: iterate
over the keys in order and set `new_d[k] = batch_dict[k][i]`; indexing a
batch array out of range raises `IndexError`. -/
def unbatchify_dict {α : Type} (batch_dict : List (String × List α)) (i : Nat) :
    Except String (List (String × α)) :=
  match batch_dict with
  | [] => .ok []
  | (k, v) :: rest =>
    match v[i]? with
    | none => .error "IndexError"
    | some x =>
      match unbatchify_dict rest i with
      | .error e => .error e
      | .ok r => .ok ((k, x) :: r)

/-- Embedding of the static method `batchify_dict(batch_dict, i)`: its body in
the source is character-for-character the body of `unbatchify_dict`. -/
def batchify_dict {α : Type} (batch_dict : List (String × List α)) (i : Nat) :
    Except String (List (String × α)) :=
  match batch_dict with
  | [] => .ok []
  | (k, v) :: rest =>
    match v[i]? with
    | none => .error "IndexError"
    | some x =>
      match batchify_dict rest i with
      | .error e => .error e
      | .ok r => .ok ((k, x) :: r)

/-- Embedding of `sample_goal(self)`:
`goals = self.sample_goals(1); return self.unbatchify_dict(goals, 0)`. -/
def sample_goal (env : MultitaskEnv) : Except String (List (String × List ℝ)) :=
  let goals := env.sample_goals 1
  unbatchify_dict goals 0

/-- Embedding of `compute_reward(self, action, obs)`:
`actions = action[None]` (insert a leading batch axis) and
`next_obs = {k: v[None] for k, v in obs.items()}`, then return
`self.compute_rewards(actions, next_obs)[0]`.  If `compute_rewards` returns
the Python value `None` (the base default), subscripting it raises
`TypeError`; if it returns an empty array, `[0]` raises `IndexError`. -/
def compute_reward (env : MultitaskEnv) (action : List ℝ)
    (obs : List (String × List ℝ)) : Except String ℝ :=
  let actions := [action]
  let next_obs := obs.map (fun kv => (kv.1, [kv.2]))
  match env.compute_rewards actions next_obs with
  | none => .error "TypeError"
  | some rs =>
    match rs[0]? with
    | none => .error "IndexError"
    | some r => .ok r

end MultitaskEnv

/-! ### Helper lemmas -/

theorem zipWith_sub_eq_ofFn (a : List ℝ) :
    ∀ (b : List ℝ) (h : a.length = b.length),
      List.zipWith (fun x y => x - y) a b
        = List.ofFn (fun i : Fin a.length => a.get i - b.get (Fin.cast h i)) := by
  induction a with
  | nil =>
    intro b h
    cases b with
    | nil => simp
    | cons y ys => simp at h
  | cons x xs ih =>
    intro b h
    cases b with
    | nil => simp at h
    | cons y ys =>
      have h' : xs.length = ys.length := by simpa using h
      simp only [List.zipWith_cons_cons]
      rw [ih ys h', List.ofFn_succ]
      rfl

theorem goal_distance_ok (a b : List ℝ) (h : a.length = b.length) :
    goal_distance a b
      = .ok ‖(show EuclideanSpace ℝ (Fin a.length) from
          fun i => a.get i - b.get (Fin.cast h i))‖ := by
  rw [goal_distance, if_pos h]
  congr 1
  rw [EuclideanSpace.norm_eq, zipWith_sub_eq_ofFn a b h, List.map_ofFn,
    List.sum_ofFn]
  refine congrArg Real.sqrt (Finset.sum_congr rfl fun i _ => ?_)
  show (a.get i - b.get (Fin.cast h i)) * (a.get i - b.get (Fin.cast h i))
    = ‖a.get i - b.get (Fin.cast h i)‖ ^ 2
  rw [Real.norm_eq_abs, sq_abs, pow_two]

/-- C1: for equal-shape arrays, `goal_distance` returns the Euclidean norm of
the difference along the last axis (for a 1-D pair, the Euclidean norm of the
difference vector; for a batched 2-D pair, one such norm per batch row, each
agreeing with the 1-D call on that row); for arrays of different shapes it
raises `AssertionError`.  It is a pure function of its arguments. -/
theorem goal_distance_spec :
    (∀ a b : List ℝ,
      (∀ h : a.length = b.length,
        goal_distance a b
          = .ok ‖(show EuclideanSpace ℝ (Fin a.length) from
              fun i => a.get i - b.get (Fin.cast h i))‖) ∧
      (a.length ≠ b.length → goal_distance a b = .error "AssertionError")) ∧
    (∀ A B : List (List ℝ),
      (A.map List.length = B.map List.length →
        ∃ l, goal_distance_batch A B = .ok l ∧ l.length = A.length ∧
          ∀ j x y, A.get? j = some x → B.get? j = some y →
            ∃ r, goal_distance x y = .ok r ∧ l.get? j = some r) ∧
      (A.map List.length ≠ B.map List.length →
        goal_distance_batch A B = .error "AssertionError")) := by
  constructor
  · intro a b
    refine ⟨goal_distance_ok a b, fun hne => ?_⟩
    rw [goal_distance, if_neg hne]
  · intro A B
    constructor
    · intro hsh
      have hAB : A.length = B.length := by
        have := congrArg List.length hsh
        simpa using this
      refine ⟨_, by rw [goal_distance_batch, if_pos hsh], ?_, ?_⟩
      · simp [hAB]
      · intro j x y hx hy
        have hxy : x.length = y.length := by
          have hj : (A.map List.length).get? j = (B.map List.length).get? j := by
            rw [hsh]
          rw [List.get?_map, List.get?_map, hx, hy] at hj
          simpa using hj
        refine ⟨Real.sqrt (((List.zipWith (fun u v => u - v) x y).map
          (fun z => z * z)).sum), ?_, ?_⟩
        · rw [goal_distance, if_pos hxy]
        · rw [List.get?_zipWith', hx, hy]
          rfl
    · intro hne
      rw [goal_distance_batch, if_neg hne]

/-- Witness for C1: a concrete equal-shape pair (where the theorem yields the
Euclidean norm), a concrete shape mismatch in 1-D, a concrete batched pair,
and a concrete batched shape mismatch. -/
theorem goal_distance_spec_witness :
    (goal_distance [(3 : ℝ), 4] [0, 0]
      = .ok ‖(show EuclideanSpace ℝ (Fin 2) from
          fun i => [(3 : ℝ), 4].get i - [(0 : ℝ), 0].get (Fin.cast rfl i))‖) ∧
    goal_distance [(1 : ℝ)] [] = .error "AssertionError" ∧
    (∃ l, goal_distance_batch [[(3 : ℝ), 4]] [[0, 0]] = .ok l ∧
      l.length = 1 ∧
      ∀ j x y, [[(3 : ℝ), 4]].get? j = some x → [[(0 : ℝ), 0]].get? j = some y →
        ∃ r, goal_distance x y = .ok r ∧ l.get? j = some r) ∧
    goal_distance_batch [[(3 : ℝ), 4]] [[0]] = .error "AssertionError" := by
  refine ⟨(goal_distance_spec.1 [(3 : ℝ), 4] [0, 0]).1 rfl,
    (goal_distance_spec.1 [(1 : ℝ)] []).2 (by decide),
    (goal_distance_spec.2 [[(3 : ℝ), 4]] [[0, 0]]).1 (by norm_num),
    (goal_distance_spec.2 [[(3 : ℝ), 4]] [[0]]).2 (by norm_num)⟩

/-- A concrete sparse-mode environment used to instantiate theorems. -/
noncomputable def envSparse : MultitaskEnv where
  reward_type := "sparse"
  distance_threshold := 1
  state_goal := [0]
  get_obs := [("achieved_goal", [0])]
  sample_goals := fun _ => []
  compute_rewards := fun _ _ => none

/-- A concrete sparse-mode environment with threshold `0`, so that the
achieved/desired distance can sit exactly on the threshold. -/
noncomputable def envEdge : MultitaskEnv where
  reward_type := "sparse"
  distance_threshold := 0
  state_goal := [0]
  get_obs := [("achieved_goal", [0])]
  sample_goals := fun _ => []
  compute_rewards := fun _ _ => none

/-- A concrete environment whose `compute_rewards` override always returns the
batch `[7]`. -/
noncomputable def envSeven : MultitaskEnv where
  reward_type := "dense"
  distance_threshold := 1
  state_goal := [0]
  get_obs := [("achieved_goal", [0])]
  sample_goals := fun _ => []
  compute_rewards := fun _ _ => some [7]

theorem goal_distance_zero : goal_distance [(0 : ℝ)] [0] = .ok 0 := by
  simp [goal_distance]

/-- C2: whenever the two goals have a distance `d`, `compute_reward_gym`
returns `0` if `d ≤ distance_threshold` and `-1` if `d > distance_threshold`
when `reward_type = "sparse"`, and exactly `-d` for every other value of
`reward_type`. -/
theorem compute_reward_gym_spec (env : MultitaskEnv) (a b : List ℝ)
    (info : List (String × ℝ)) (d : ℝ) (h : goal_distance a b = .ok d) :
    env.compute_reward_gym a b info
      = .ok (if env.reward_type = "sparse"
          then (if d ≤ env.distance_threshold then 0 else -1)
          else -d) := by
  simp only [MultitaskEnv.compute_reward_gym, h]
  by_cases hs : env.reward_type = "sparse"
  · rw [if_pos hs, if_pos hs]
    by_cases hd : env.distance_threshold < d
    · rw [if_pos hd, if_neg (not_le.mpr hd)]
    · rw [if_neg hd, if_pos (not_lt.mp hd)]
      norm_num
  · rw [if_neg hs, if_neg hs]

/-- Witness for C2: in `envSparse` (threshold `1`), goals `[0]` and `[0]` have
distance `0 ≤ 1`, so the sparse reward is `0`. -/
theorem compute_reward_gym_spec_witness :
    envSparse.compute_reward_gym [0] [0] [] = .ok 0 := by
  have h := compute_reward_gym_spec envSparse [0] [0] [] 0 goal_distance_zero
  simpa [envSparse] using h

/-- C3: whenever the two goals have a distance `d`, `_is_success` returns
`1.0` exactly when `d` is strictly below the threshold and `0.0` otherwise;
in particular when `d` equals the threshold it returns `0.0` (failure) while
the sparse-mode `compute_reward_gym` returns `0` (success). -/
theorem is_success_spec (env : MultitaskEnv) (a b : List ℝ) (d : ℝ)
    (h : goal_distance a b = .ok d) :
    env.is_success a b
      = .ok (if d < env.distance_threshold then (1 : ℝ) else 0) ∧
    (d = env.distance_threshold →
      env.is_success a b = .ok 0 ∧
      (env.reward_type = "sparse" →
        ∀ info, env.compute_reward_gym a b info = .ok 0)) := by
  refine ⟨by simp only [MultitaskEnv.is_success, h], fun hd => ⟨?_, ?_⟩⟩
  · simp only [MultitaskEnv.is_success, h]
    rw [if_neg (by rw [hd]; exact lt_irrefl _)]
  · intro hs info
    simp only [MultitaskEnv.compute_reward_gym, h, if_pos hs]
    rw [if_neg (by rw [hd]; exact lt_irrefl _)]
    norm_num

/-- Witness for C3: in `envEdge` (threshold `0`), goals `[0]` and `[0]` have
distance `0`, exactly the threshold: the success indicator is `0.0` while the
sparse reward is `0`. -/
theorem is_success_spec_witness :
    envEdge.is_success [0] [0] = .ok 0 ∧
    envEdge.compute_reward_gym [0] [0] [] = .ok 0 := by
  have h := (is_success_spec envEdge [0] [0] 0 goal_distance_zero).2 rfl
  exact ⟨h.1, h.2 rfl []⟩

/-- C4: whenever `step` returns a tuple `(ob, r, done, info)`, `done` is
`false`, `ob` is the observation from `_get_obs`, and `info` is the
single-entry mapping sending `is_success` to the success indicator computed
from the observation's `achieved_goal` and the current `_state_goal`; the
reward is the `compute_reward_gym` value for the same pair. -/
theorem step_spec (env : MultitaskEnv) (action : List ℝ)
    (ob : List (String × List ℝ)) (r : ℝ) (d : Bool) (info : List (String × ℝ))
    (h : env.step action = .ok (ob, r, d, info)) :
    d = false ∧ ob = env.get_obs ∧
    ∃ ag s, List.lookup "achieved_goal" env.get_obs = some ag ∧
      env.is_success ag env.state_goal = .ok s ∧
      info = [("is_success", s)] ∧
      env.compute_reward_gym ag env.state_goal info = .ok r := by
  cases hl : List.lookup "achieved_goal" env.get_obs with
  | none =>
    rw [show env.step action = .error "KeyError" by
      simp only [MultitaskEnv.step, hl]] at h
    simp at h
  | some ag =>
    cases hs : env.is_success ag env.state_goal with
    | error e =>
      rw [show env.step action = .error e by
        simp only [MultitaskEnv.step, hl, hs]] at h
      simp at h
    | ok s =>
      cases hr : env.compute_reward_gym ag env.state_goal [("is_success", s)] with
      | error e =>
        rw [show env.step action = .error e by
          simp only [MultitaskEnv.step, hl, hs, hr]] at h
        simp at h
      | ok rv =>
        rw [show env.step action
            = .ok (env.get_obs, rv, false, [("is_success", s)]) by
          simp only [MultitaskEnv.step, hl, hs, hr]] at h
        simp only [Except.ok.injEq, Prod.mk.injEq] at h
        obtain ⟨hob, hrv, hd, hinfo⟩ := h
        subst hob hrv hd hinfo
        exact ⟨rfl, rfl, ag, s, rfl, hs, rfl, hr⟩

/-- Witness for C4: in `envSparse`, `step [0]` succeeds and the theorem
applies to its result. -/
theorem step_spec_witness :
    false = false ∧
    [("achieved_goal", [(0 : ℝ)])] = envSparse.get_obs ∧
    ∃ ag s, List.lookup "achieved_goal" envSparse.get_obs = some ag ∧
      envSparse.is_success ag envSparse.state_goal = .ok s ∧
      ([(("is_success" : String), (1 : ℝ))] : List (String × ℝ))
        = [("is_success", s)] ∧
      envSparse.compute_reward_gym ag envSparse.state_goal [("is_success", s)]
        = .ok 0 := by
  have hst : envSparse.step [0]
      = .ok ([("achieved_goal", [0])], 0, false, [("is_success", 1)]) := by
    norm_num [MultitaskEnv.step, MultitaskEnv.is_success,
      MultitaskEnv.compute_reward_gym, goal_distance, envSparse, List.lookup]
  exact step_spec envSparse [0] [("achieved_goal", [0])] 0 false
    [("is_success", 1)] hst

/-- C5: `sample_goal` is exactly `unbatchify_dict (sample_goals 1) 0`; the
sampler is an explicit function of the environment, hence deterministic. -/
theorem sample_goal_spec (env : MultitaskEnv) :
    env.sample_goal = MultitaskEnv.unbatchify_dict (env.sample_goals 1) 0 :=
  rfl

/-- C6: whenever the (overridden) `compute_rewards` returns a batch `rs` on
the batch-of-one action array and the batch-of-one observation mapping, and
`rs` has an element at index `0`, `compute_reward` returns exactly that
element. -/
theorem compute_reward_spec (env : MultitaskEnv) (action : List ℝ)
    (obs : List (String × List ℝ)) (rs : List ℝ) (x : ℝ)
    (h : env.compute_rewards [action] (obs.map fun kv => (kv.1, [kv.2]))
      = some rs)
    (hx : rs[0]? = some x) :
    env.compute_reward action obs = .ok x := by
  simp only [MultitaskEnv.compute_reward, h, hx]

/-- Witness for C6: `envSeven`'s override returns `[7]`, so `compute_reward`
returns `7`. -/
theorem compute_reward_spec_witness :
    envSeven.compute_reward [0] [] = .ok 7 :=
  compute_reward_spec envSeven [0] [] [7] 7 rfl rfl

theorem unbatchify_ok {α : Type} :
    ∀ (d : List (String × List α)) (i : Nat) (r : List (String × α)),
      MultitaskEnv.unbatchify_dict d i = .ok r →
        r.length = d.length ∧
        ∀ j : Nat, r[j]?
          = (d[j]?).bind fun kv => ((kv.2)[i]?).map fun x => (kv.1, x) := by
  intro d
  induction d with
  | nil =>
    intro i r h
    simp only [MultitaskEnv.unbatchify_dict, Except.ok.injEq] at h
    subst h
    exact ⟨rfl, fun j => by simp⟩
  | cons kv rest ih =>
    intro i r h
    obtain ⟨k, v⟩ := kv
    cases hv : v[i]? with
    | none => simp [MultitaskEnv.unbatchify_dict, hv] at h
    | some x =>
      cases hrest : MultitaskEnv.unbatchify_dict rest i with
      | error e => simp [MultitaskEnv.unbatchify_dict, hv, hrest] at h
      | ok rr =>
        simp only [MultitaskEnv.unbatchify_dict, hv, hrest,
          Except.ok.injEq] at h
        subst h
        obtain ⟨ihlen, ihget⟩ := ih i rr hrest
        refine ⟨by simp [ihlen], fun j => ?_⟩
        cases j with
        | zero => simp [hv]
        | succ n => simpa using ihget n

theorem batchify_eq_unbatchify {α : Type} (d : List (String × List α))
    (i : Nat) : MultitaskEnv.batchify_dict d i
      = MultitaskEnv.unbatchify_dict d i := by
  induction d with
  | nil => rfl
  | cons kv rest ih =>
    obtain ⟨k, v⟩ := kv
    simp only [MultitaskEnv.batchify_dict, MultitaskEnv.unbatchify_dict, ih]

/-- C7: whenever `unbatchify_dict` (equivalently `batchify_dict`) succeeds on
a batched mapping and an index `i`, the result keeps every key and maps it to
that key's array sliced at `i`; and batching a single mapping into a batch of
size `1` then unbatchifying at `0` returns the original mapping. -/
theorem unbatchify_dict_spec :
    (∀ (α : Type) (d : List (String × List α)) (i : Nat)
        (r : List (String × α)),
      MultitaskEnv.unbatchify_dict d i = .ok r →
        r.length = d.length ∧
        ∀ j : Nat, r[j]?
          = (d[j]?).bind fun kv => ((kv.2)[i]?).map fun x => (kv.1, x)) ∧
    (∀ (α : Type) (g : List (String × α)),
      MultitaskEnv.unbatchify_dict (g.map fun kv => (kv.1, [kv.2])) 0
        = .ok g) ∧
    (∀ (α : Type) (d : List (String × List α)) (i : Nat),
      MultitaskEnv.batchify_dict d i = MultitaskEnv.unbatchify_dict d i) := by
  refine ⟨fun α d i r h => unbatchify_ok d i r h, fun α g => ?_,
    fun α d i => batchify_eq_unbatchify d i⟩
  induction g with
  | nil => rfl
  | cons kv rest ih =>
    obtain ⟨k, v⟩ := kv
    simp [MultitaskEnv.unbatchify_dict, ih]

/-- Witness for C7: slicing a concrete two-key batch at index `1`, checked at
key position `0`. -/
theorem unbatchify_dict_spec_witness :
    MultitaskEnv.unbatchify_dict
        ([("a", [10, 20]), ("b", [30, 40])] : List (String × List Nat)) 1
      = .ok [("a", 20), ("b", 40)] ∧
    ([("a", 20), ("b", 40)] : List (String × Nat))[0]?
      = (([("a", [10, 20]), ("b", [30, 40])] :
          List (String × List Nat))[0]?).bind
        fun kv => ((kv.2)[1]?).map fun x => (kv.1, x) := by
  have h : MultitaskEnv.unbatchify_dict
      ([("a", [10, 20]), ("b", [30, 40])] : List (String × List Nat)) 1
      = .ok [("a", 20), ("b", 40)] := rfl
  exact ⟨h, (unbatchify_dict_spec.1 Nat _ 1 _ h).2 0⟩

/-- C8: `batchify_dict` and `unbatchify_dict` are the same operation: they
agree on every mapping and index. -/
theorem batchify_dict_spec (α : Type) (d : List (String × List α)) (i : Nat) :
    MultitaskEnv.batchify_dict d i = MultitaskEnv.unbatchify_dict d i :=
  batchify_eq_unbatchify d i

/-- C9: the non-overridden `compute_rewards` returns the value `None` on
every input — an ordinary return value, not a raised not-implemented error —
and an environment relying on it gets a `TypeError` from `compute_reward`
when the `None` is subscripted. -/
theorem compute_rewards_default_spec :
    (∀ (actions : List (List ℝ)) (obs : List (String × List (List ℝ))),
      MultitaskEnv.compute_rewards_default actions obs = none) ∧
    (∀ (env : MultitaskEnv),
      env.compute_rewards = MultitaskEnv.compute_rewards_default →
      ∀ (action : List ℝ) (obs : List (String × List ℝ)),
        env.compute_reward action obs = .error "TypeError") := by
  refine ⟨fun _ _ => rfl, fun env henv action obs => ?_⟩
  simp [MultitaskEnv.compute_reward, henv,
    MultitaskEnv.compute_rewards_default]

/-- Witness for C9: `envSparse` keeps the default `compute_rewards`, and its
`compute_reward` fails with a `TypeError`. -/
theorem compute_rewards_default_spec_witness :
    envSparse.compute_reward [0] [] = .error "TypeError" :=
  compute_rewards_default_spec.2 envSparse rfl [0] []

/-- C10: `step` never reads its action argument: on the same environment
state, any two actions produce identical results. -/
theorem step_ignores_action (env : MultitaskEnv) (a1 a2 : List ℝ) :
    env.step a1 = env.step a2 :=
  rfl

end Multiworld
